import Mathlib

/-!
Verification development for the terminal chatbot in `new.py`
(intent classifier, slot-filling complaint flow, safe arithmetic
evaluator, persisted memory/history model, CSV quick insights).

The Python source is shallowly embedded: pure functions become Lean
functions, the mutable `Chatbot` object becomes explicit state passing
over a `BotState` record, and the ambient nondeterminism (clock,
`random`) is supplied by an explicit environment of streams.  Machine
floats are modelled as rationals (`Rat`); where the source prints a
square root to three decimals, the model rounds the real square root by
exact integer arithmetic.  Character-level operations (`lower`,
`strip`, the regex character class `\s` and `\w`) are modelled over the
ASCII range, which covers every literal appearing in the source.
-/

/-! ## String helpers (Python `str` operations used by the source) -/

/-- Decide whether the first list occurs at the front of the second
(list form of a starts-with comparison). -/
def listPre : List Char → List Char → Bool
  | [], _ => true
  | _ :: _, [] => false
  | a :: as, b :: bs => a = b && listPre as bs

/-- Decide whether `n` occurs contiguously anywhere inside `h`
(Python's substring operator `in`). -/
def listIncl (n : List Char) : List Char → Bool
  | [] => listPre n []
  | c :: cs => listPre n (c :: cs) || listIncl n cs

/-- Substring containment on strings (Python `n in h`). -/
def strIncl (n h : String) : Bool :=
  listIncl n.toList h.toList

/-- The ASCII whitespace characters recognised by Python's `str.strip`
and the regex class `\s` (restricted to ASCII; no other whitespace
appears in the source or its inputs). -/
def pyWsChar (c : Char) : Bool :=
  c = ' ' || c = '\t' || c = '\n' || c = '\x0d' || c = '\x0b' || c = '\x0c'

/-- Drop leading whitespace. -/
def dropWsLead : List Char → List Char
  | [] => []
  | c :: cs => if pyWsChar c then dropWsLead cs else c :: cs

/-- Python `str.strip()` (ASCII whitespace). -/
def pyStrip (s : String) : String :=
  String.mk ((dropWsLead (dropWsLead s.toList.reverse).reverse))

/-- Python `str.lower()` (ASCII letters; no cased non-ASCII characters
occur in the source's literals). -/
def pyLower (s : String) : String :=
  String.mk (s.toList.map Char.toLower)

/-- Python `str.upper()` (ASCII letters). -/
def pyUpper (s : String) : String :=
  String.mk (s.toList.map Char.toUpper)

theorem dropWsLead_length_le (l : List Char) : (dropWsLead l).length ≤ l.length := by
  induction l with
  | nil => simp [dropWsLead]
  | cons c cs ih =>
    simp only [dropWsLead]
    split
    · exact le_trans ih (Nat.le_succ _)
    · exact le_refl _

/-- Collapse each run of whitespace characters to a single space, the
effect of `re.sub(r"\s+", " ", text)`: the flag records whether the
scan is inside a whitespace run (whose first character already emitted
the space). -/
def collapseWsAux : Bool → List Char → List Char
  | _, [] => []
  | inRun, c :: cs =>
    if pyWsChar c then
      if inRun then collapseWsAux true cs else ' ' :: collapseWsAux true cs
    else c :: collapseWsAux false cs

/-- Collapse whitespace runs to single spaces. -/
def collapseWs (l : List Char) : List Char :=
  collapseWsAux false l

/-- `normalize` from the source: strip, lowercase, collapse internal
whitespace runs to single spaces.  (Named `normalizeText` because
`normalize` already exists in the ambient library.) -/
def normalizeText (text : String) : String :=
  String.mk (collapseWs (pyStrip (pyLower text)).toList)

/-- Python `str.split()` with no argument: split on whitespace runs,
discarding empty pieces. -/
def splitWsAux : List Char → List Char → List String
  | acc, [] => if acc.isEmpty then [] else [String.mk acc.reverse]
  | acc, c :: cs =>
    if pyWsChar c then
      if acc.isEmpty then splitWsAux [] cs
      else String.mk acc.reverse :: splitWsAux [] cs
    else splitWsAux (c :: acc) cs

/-- Python `str.split()` (whitespace splitting). -/
def splitWs (s : String) : List String :=
  splitWsAux [] s.toList

/-- Python `str.title()`: uppercase a letter that does not follow a
letter, lowercase the other letters. -/
def pyTitleAux : Bool → List Char → List Char
  | _, [] => []
  | prevAlpha, c :: cs =>
    if c.isAlpha then
      (if prevAlpha then c.toLower else c.toUpper) :: pyTitleAux true cs
    else
      c :: pyTitleAux false cs

/-- Python `str.title()`. -/
def pyTitle (s : String) : String :=
  String.mk (pyTitleAux false s.toList)

/-- Python `str.startswith(pre)` (list-level comparison, used instead
of the substring-based library routine so that closed terms evaluate
by kernel reduction). -/
def strStarts (pre s : String) : Bool :=
  listPre pre.toList s.toList

/-- Drop the first `n` characters of a string (list-level `str[n:]`). -/
def strDrop (n : Nat) (s : String) : String :=
  String.mk (s.toList.drop n)

/-- Python `str.strip('"')`: remove leading and trailing double-quote
characters. -/
def dropQuoteLead : List Char → List Char
  | [] => []
  | c :: cs => if c = '"' then dropQuoteLead cs else c :: cs

/-- Python `str.strip('"')`. -/
def stripQuotes (s : String) : String :=
  String.mk ((dropQuoteLead (dropQuoteLead s.toList.reverse).reverse))

/-! ## Regex word-boundary machinery

The intent patterns are alternations of literal words wrapped in `\b`
word boundaries.  A boundary holds between two positions when exactly
one side is a word character (`[A-Za-z0-9_]`, ASCII restriction of
`\w`); the edge of the string counts as a non-word side. -/

/-- ASCII word character, the class `\w`. -/
def isWordChar (c : Char) : Bool :=
  c.isAlphanum || c = '_'

/-- Word boundary between an optional left character and an optional
right character (`none` = edge of string). -/
def wbound (a b : Option Char) : Bool :=
  (a.elim false isWordChar) != (b.elim false isWordChar)

/-- Does the literal `w` match at the head of `rest`, with word
boundaries against `prev` (the character before `rest`) and the
character right after the matched text? -/
def wbAt (w : List Char) (prev : Option Char) (rest : List Char) : Bool :=
  listPre w rest && wbound prev w.head? && wbound w.getLast? (rest.drop w.length).head?

/-- Does `\b w \b` match anywhere in the text (scanning left to right,
tracking the previous character)? -/
def wbOccursAux (w : List Char) : Option Char → List Char → Bool
  | prev, [] => wbAt w prev []
  | prev, c :: cs => wbAt w prev (c :: cs) || wbOccursAux w (some c) cs

/-- `re.search(r"\b(a1|a2|...)\b", s)` viewed as a Boolean: some
alternative occurs word-bounded in `s`. -/
def wordAltOccurs (alts : List String) (s : String) : Bool :=
  alts.any (fun a => wbOccursAux a.toList none s.toList)

/-! ## SafeEvaluator (`new.py` lines 47-98)

The evaluator walks a Python abstract syntax tree.  The AST is embedded
as `PyExpr`; numeric values are modelled as rationals.  Note that
`SafeEvaluator.eval` calls `_eval` directly and never routes through the
overridden `visit`; the `ALLOWED_NODES` tuple therefore only matters as
the catalogue of node kinds, which `allowedBOp` / `nodeAllowed` mirror.
`Compare` (and its operator nodes) and `BitOr` stand in for parseable
node kinds outside `ALLOWED_NODES`; `Call` and `Name` are inside it. -/

/-- Binary operator nodes.  `Add` through `Pow` are in `ALLOWED_NODES`;
`BitOr` is a representative binary operator node outside the tuple
(Python still parses `a | b` into a `BinOp` carrying it). -/
inductive BOp where
  | add | sub | mult | div | mod | pow | bitor
deriving DecidableEq, Repr

/-- Unary operator nodes (`UAdd`, `USub`, both allowed). -/
inductive UOp where
  | uadd | usub
deriving DecidableEq, Repr

/-- Embedded Python expression AST.  `num` covers `ast.Num` and numeric
`ast.Constant`; `strConst` covers a non-numeric `ast.Constant`; `cmp`
covers `ast.Compare` (a node kind outside `ALLOWED_NODES`; the
comparison operator itself is irrelevant because `_eval` has no case
for the node). -/
inductive PyExpr where
  | num (v : ℚ)
  | strConst (s : String)
  | binop (op : BOp) (l r : PyExpr)
  | unop (op : UOp) (e : PyExpr)
  | name (id : String)
  | call (f : PyExpr) (args : List PyExpr)
  | cmp (l r : PyExpr)

/-- Is the binary operator node kind listed in `ALLOWED_NODES`? -/
def allowedBOp : BOp → Bool
  | .bitor => false
  | _ => true

mutual

/-- Does the tree contain a node kind outside `ALLOWED_NODES`?
(`Expression`, `BinOp`, `UnaryOp`, `Num`, `Constant`, the six arithmetic
operator nodes, `USub`, `UAdd`, `Load`, `Call` and `Name` are allowed;
`Compare` and `BitOr` are not.) -/
def containsBad : PyExpr → Bool
  | .num _ => false
  | .strConst _ => false
  | .binop op l r => !allowedBOp op || containsBad l || containsBad r
  | .unop _ e => containsBad e
  | .name _ => false
  | .call f args => containsBad f || containsBadList args
  | .cmp _ _ => true

/-- `containsBad` over an argument list. -/
def containsBadList : List PyExpr → Bool
  | [] => false
  | e :: es => containsBad e || containsBadList es

end

/-- `ALLOWED_NAMES`: the two constants, as the decimal rationals printed
in the source (the shortest decimal representations of the doubles). -/
def ALLOWED_NAMES : List (String × ℚ) :=
  [("pi", (3141592653589793 : ℚ) / 1000000000000000),
   ("e", (2718281828459045 : ℚ) / 1000000000000000)]

/-- Python `%` for the modelled numeric values (sign follows the
divisor): `a - b * floor(a / b)`. -/
def pyMod (a b : ℚ) : ℚ :=
  a - b * ((a / b).floor : ℚ)

/-- Dispatch of `_eval`'s `BinOp` branch once both operands are
evaluated.  Division and modulo by zero surface Python's
`ZeroDivisionError`; an operator node without a case (`BitOr`) falls
through to the final `raise ValueError("Unsupported expression")`.
A fractional exponent would be an irrational real, outside the
rational model; no claim or caller exercises that case. -/
def applyB : BOp → ℚ → ℚ → Except String ℚ
  | .add, a, b => .ok (a + b)
  | .sub, a, b => .ok (a - b)
  | .mult, a, b => .ok (a * b)
  | .div, a, b => if b = 0 then .error "division by zero" else .ok (a / b)
  | .mod, a, b => if b = 0 then .error "division by zero" else .ok (pyMod a b)
  | .pow, a, b =>
    if b.den = 1 then
      if a = 0 ∧ b.num < 0 then .error "division by zero"
      else .ok (a ^ b.num)
    else .error "non-integer exponent outside the rational model"
  | .bitor, _, _ => .error "Unsupported expression"

/-- `SafeEvaluator._eval` (`new.py` lines 68-98): recursive
interpretation of the tree.  A `BinOp` evaluates both children before
dispatching on the operator; `Call` and `Compare` have no case and fall
through to `Unsupported expression`; a `Name` resolves only against
`ALLOWED_NAMES`. -/
def evalA : PyExpr → Except String ℚ
  | .num v => .ok v
  | .strConst _ => .error "Unsupported expression"
  | .binop op l r => do
      let a ← evalA l
      let b ← evalA r
      applyB op a b
  | .unop op e => do
      let v ← evalA e
      match op with
      | .uadd => pure v
      | .usub => pure (-v)
  | .name id =>
      match (ALLOWED_NAMES.find? (fun p => p.1 = id)) with
      | some p => .ok p.2
      | none => .error ("Unknown name: " ++ id)
  | .call _ _ => .error "Unsupported expression"
  | .cmp _ _ => .error "Unsupported expression"

/-! ## Expression parsing (`ast.parse(expr, mode='eval')`)

`SafeEvaluator.eval` first parses the input string with Python's
expression parser.  The model implements the arithmetic fragment the
evaluator is meant for (numeric literals, identifiers, `+ - * / % **`,
unary signs, parentheses, calls) with Python's precedence; any other
character or leftover input is a syntax error, mirroring `SyntaxError`
from `ast.parse`.  Node kinds that only richer Python syntax can
introduce (comparisons, attribute access, ...) are exercised directly
as `PyExpr` values rather than through this parser. -/

/-- Tokens of the arithmetic fragment. -/
inductive Tok where
  | lit (v : ℚ)
  | ident (s : String)
  | plus | minus | star | slash | percent | dstar | lpar | rpar | comma
deriving DecidableEq, Repr

/-- Identifier character after the first (`[A-Za-z0-9_]`). -/
def identChar (c : Char) : Bool :=
  c.isAlphanum || c = '_'

/-- Take the longest run satisfying `p`. -/
def takeRun (p : Char → Bool) : List Char → List Char × List Char
  | [] => ([], [])
  | c :: cs =>
    if p c then
      let (r, rest) := takeRun p cs
      (c :: r, rest)
    else ([], c :: cs)

/-- Digits to a natural number (most significant first). -/
def digitsToNat (ds : List Char) : Nat :=
  ds.foldl (fun n c => 10 * n + (c.toNat - '0'.toNat)) 0

/-- Lexer for the arithmetic fragment; `fuel` bounds the recursion and
is instantiated with the input length. -/
def lexAux : Nat → List Char → Except String (List Tok)
  | 0, _ => .error "invalid syntax"
  | _ + 1, [] => .ok []
  | fuel + 1, c :: cs =>
    if pyWsChar c then lexAux fuel cs
    else if c.isDigit then
      let (ds, rest) := takeRun Char.isDigit (c :: cs)
      match rest with
      | '.' :: rest' =>
        let (fs, rest'') := takeRun Char.isDigit rest'
        do
          let ts ← lexAux fuel rest''
          pure (Tok.lit ((digitsToNat ds : ℚ) + (digitsToNat fs : ℚ) / (10 ^ fs.length : ℚ)) :: ts)
      | _ => do
        let ts ← lexAux fuel rest
        pure (Tok.lit (digitsToNat ds : ℚ) :: ts)
    else if c = '.' then
      match cs with
      | d :: _ =>
        if d.isDigit then
          let (fs, rest) := takeRun Char.isDigit cs
          do
            let ts ← lexAux fuel rest
            pure (Tok.lit ((digitsToNat fs : ℚ) / (10 ^ fs.length : ℚ)) :: ts)
        else .error "invalid syntax"
      | [] => .error "invalid syntax"
    else if c.isAlpha || c = '_' then
      let (nm, rest) := takeRun identChar (c :: cs)
      do
        let ts ← lexAux fuel rest
        pure (Tok.ident (String.mk nm) :: ts)
    else if c = '*' then
      match cs with
      | '*' :: rest => do
        let ts ← lexAux fuel rest
        pure (Tok.dstar :: ts)
      | _ => do
        let ts ← lexAux fuel cs
        pure (Tok.star :: ts)
    else if c = '+' then do
      let ts ← lexAux fuel cs
      pure (Tok.plus :: ts)
    else if c = '-' then do
      let ts ← lexAux fuel cs
      pure (Tok.minus :: ts)
    else if c = '/' then do
      let ts ← lexAux fuel cs
      pure (Tok.slash :: ts)
    else if c = '%' then do
      let ts ← lexAux fuel cs
      pure (Tok.percent :: ts)
    else if c = '(' then do
      let ts ← lexAux fuel cs
      pure (Tok.lpar :: ts)
    else if c = ')' then do
      let ts ← lexAux fuel cs
      pure (Tok.rpar :: ts)
    else if c = ',' then do
      let ts ← lexAux fuel cs
      pure (Tok.comma :: ts)
    else .error "invalid syntax"

/-- Tokenise an input string. -/
def lexExpr (s : String) : Except String (List Tok) :=
  lexAux (s.length + 1) s.toList

mutual

/-- Addition level: `term (('+'|'-') term)*`. -/
def pExpr : Nat → List Tok → Except String (PyExpr × List Tok)
  | 0, _ => .error "invalid syntax"
  | fuel + 1, ts => do
    let (l, ts') ← pTerm fuel ts
    pExprRest fuel l ts'

/-- Left-associative continuation of the addition level. -/
def pExprRest : Nat → PyExpr → List Tok → Except String (PyExpr × List Tok)
  | 0, _, _ => .error "invalid syntax"
  | fuel + 1, l, Tok.plus :: ts => do
    let (r, ts') ← pTerm fuel ts
    pExprRest fuel (PyExpr.binop .add l r) ts'
  | fuel + 1, l, Tok.minus :: ts => do
    let (r, ts') ← pTerm fuel ts
    pExprRest fuel (PyExpr.binop .sub l r) ts'
  | _ + 1, l, ts => .ok (l, ts)

/-- Multiplication level: `factor (('*'|'/'|'%') factor)*`. -/
def pTerm : Nat → List Tok → Except String (PyExpr × List Tok)
  | 0, _ => .error "invalid syntax"
  | fuel + 1, ts => do
    let (l, ts') ← pFactor fuel ts
    pTermRest fuel l ts'

/-- Left-associative continuation of the multiplication level. -/
def pTermRest : Nat → PyExpr → List Tok → Except String (PyExpr × List Tok)
  | 0, _, _ => .error "invalid syntax"
  | fuel + 1, l, Tok.star :: ts => do
    let (r, ts') ← pFactor fuel ts
    pTermRest fuel (PyExpr.binop .mult l r) ts'
  | fuel + 1, l, Tok.slash :: ts => do
    let (r, ts') ← pFactor fuel ts
    pTermRest fuel (PyExpr.binop .div l r) ts'
  | fuel + 1, l, Tok.percent :: ts => do
    let (r, ts') ← pFactor fuel ts
    pTermRest fuel (PyExpr.binop .mod l r) ts'
  | _ + 1, l, ts => .ok (l, ts)

/-- Unary level: `('+'|'-') factor | power`. -/
def pFactor : Nat → List Tok → Except String (PyExpr × List Tok)
  | 0, _ => .error "invalid syntax"
  | fuel + 1, Tok.plus :: ts => do
    let (e, ts') ← pFactor fuel ts
    pure (PyExpr.unop .uadd e, ts')
  | fuel + 1, Tok.minus :: ts => do
    let (e, ts') ← pFactor fuel ts
    pure (PyExpr.unop .usub e, ts')
  | fuel + 1, ts => pPower fuel ts

/-- Power level: `atom ['**' factor]` (right associative, and the
exponent may carry unary signs, as in Python). -/
def pPower : Nat → List Tok → Except String (PyExpr × List Tok)
  | 0, _ => .error "invalid syntax"
  | fuel + 1, ts => do
    let (a, ts') ← pAtom fuel ts
    match ts' with
    | Tok.dstar :: ts'' => do
      let (b, ts''') ← pFactor fuel ts''
      pure (PyExpr.binop .pow a b, ts''')
    | _ => pure (a, ts')

/-- Atoms: literals, identifiers (with optional call arguments) and
parenthesised expressions. -/
def pAtom : Nat → List Tok → Except String (PyExpr × List Tok)
  | 0, _ => .error "invalid syntax"
  | _ + 1, Tok.lit v :: ts => .ok (PyExpr.num v, ts)
  | fuel + 1, Tok.ident s :: ts =>
    match ts with
    | Tok.lpar :: Tok.rpar :: ts' => .ok (PyExpr.call (PyExpr.name s) [], ts')
    | Tok.lpar :: ts' => do
      let (args, ts'') ← pArgs fuel ts'
      pure (PyExpr.call (PyExpr.name s) args, ts'')
    | _ => .ok (PyExpr.name s, ts)
  | fuel + 1, Tok.lpar :: ts => do
    let (e, ts') ← pExpr fuel ts
    match ts' with
    | Tok.rpar :: ts'' => pure (e, ts'')
    | _ => .error "invalid syntax"
  | _ + 1, _ => .error "invalid syntax"

/-- Comma-separated call arguments up to the closing parenthesis. -/
def pArgs : Nat → List Tok → Except String (List PyExpr × List Tok)
  | 0, _ => .error "invalid syntax"
  | fuel + 1, ts => do
    let (e, ts') ← pExpr fuel ts
    match ts' with
    | Tok.comma :: ts'' => do
      let (es, ts''') ← pArgs fuel ts''
      pure (e :: es, ts''')
    | Tok.rpar :: ts'' => pure ([e], ts'')
    | _ => .error "invalid syntax"

end

/-- `ast.parse(expr, mode='eval')` over the arithmetic fragment:
tokenise, parse, and require that the whole input is consumed. -/
def parsePyExpr (s : String) : Except String PyExpr := do
  let toks ← lexExpr s
  let (e, rest) ← pExpr (8 * toks.length + 16) toks
  if rest.isEmpty then pure e else .error "invalid syntax"

/-- `SafeEvaluator.eval` (`new.py` lines 64-66): parse, then interpret
the tree body with `_eval`. -/
def safeEvalStr (s : String) : Except String ℚ := do
  let e ← parsePyExpr s
  evalA e

/-! ## Sentiment (`new.py` lines 102-128) -/

/-- `POS_WORDS`. -/
def POS_WORDS : List String :=
  ["good", "great", "excellent", "awesome", "amazing", "love", "like", "happy",
   "satisfied", "helpful", "fast", "fantastic", "superb", "brilliant",
   "wonderful", "recommend", "positive", "smooth", "convenient", "affordable",
   "reasonable", "polite", "friendly", "quick", "impressive", "neat", "clean",
   "reliable"]

/-- `NEG_WORDS`. -/
def NEG_WORDS : List String :=
  ["bad", "poor", "terrible", "awful", "hate", "dislike", "unhappy",
   "unsatisfied", "slow", "rude", "broken", "worst", "late", "expensive",
   "dirty", "confusing", "frustrating", "unhelpful", "problem", "issue",
   "negative", "buggy", "crash", "delay"]

/-- Character class of `re.findall(r"[a-zA-Z']+", ...)`. -/
def sentChar (c : Char) : Bool :=
  c.isAlpha || c = '\''

theorem takeRun_snd_length_le (p : Char → Bool) (l : List Char) :
    (takeRun p l).2.length ≤ l.length := by
  induction l with
  | nil => simp [takeRun]
  | cons c cs ih =>
    simp only [takeRun]
    split
    · exact le_trans ih (Nat.le_succ _)
    · exact le_refl _

/-- Split into maximal runs of `sentChar` characters (the behaviour of
`re.findall` with a single character-class-plus pattern). -/
def sentRuns : List Char → List String
  | [] => []
  | c :: cs =>
    if sentChar c then
      String.mk (c :: (takeRun sentChar cs).1) :: sentRuns (takeRun sentChar cs).2
    else sentRuns cs
termination_by l => l.length
decreasing_by
  · exact Nat.lt_succ_of_le (takeRun_snd_length_le sentChar cs)
  · exact Nat.lt_succ_self _

/-- `sentiment_score`: lexicon hits over token count (0 for no
tokens). -/
def sentiment_score (text : String) : ℚ :=
  let tokens := sentRuns (pyLower text).toList
  if tokens.isEmpty then 0
  else
    let score : Int := tokens.foldl
      (fun n t => if POS_WORDS.contains t then n + 1
                  else if NEG_WORDS.contains t then n - 1 else n) 0
    (score : ℚ) / (max 1 tokens.length : ℚ)

/-! ## Knowledge base and canned replies (`new.py` lines 132-169)

The byte sequences of the Python source are reproduced exactly; the
original file carries a few double-encoded characters (written here
with explicit escapes). -/

/-- `FAQ`, as an association list in Python dict insertion order. -/
def FAQ : List (String × String) :=
  [("sunk cost", "Sunk cost is money already spent and unrecoverable; ignore it when making future decisions."),
   ("opportunity cost", "Opportunity cost is the value of the next best alternative you give up when making a choice."),
   ("npv", "NPV (Net Present Value) = sum of discounted cash flows minus initial investment; choose projects with positive NPV."),
   ("irr", "IRR is the discount rate that makes NPV = 0; select projects with IRR above the required return."),
   ("capm", "CAPM: Expected Return = Rf + Beta * (Rm - Rf)."),
   ("beta", "Beta measures a stock's sensitivity to market movements (beta > 1 more volatile than market)."),
   ("perpetuity", "Perpetuity PV = C / r (first payment one period from now)."),
   ("4p", "Marketing Mix 4P: Product, Price, Place, Promotion."),
   ("stp", "STP: Segmentation, Targeting, Positioning."),
   ("swot", "SWOT: Strengths, Weaknesses, Opportunities, Threats."),
   ("kpi", "KPI: Key Performance Indicatorâ€”quantifiable measure of performance over time."),
   ("lean", "Lean aims to eliminate waste (muda) and maximize customer value."),
   ("six sigma", "Six Sigma reduces process variation; DMAIC: Define, Measure, Analyze, Improve, Control.")]

/-- `SMALLTALK`. -/
def SMALLTALK : List String :=
  ["Totally noted.", "Got it!", "Interestingâ€”tell me more.",
   "Thanks for sharing!", "I'm here to helpâ€”what's next?"]

/-- `GREETINGS`. -/
def GREETINGS : List String :=
  ["Hello! I'm your study buddy bot. What's your name?",
   "Hi there! Great to see you. How can I help today?",
   "Hey! Ready to learn something new?"]

/-- `GOODBYES`. -/
def GOODBYES : List String :=
  ["Bye! Keep learning and stay awesome!",
   "See you laterâ€”good luck with your studies!",
   "Goodbye! Ping me anytime."]

/-! ## Memory (`new.py` lines 172-202)

`Memory.data` is the record below.  `add_history` appends a stamped
entry and enforces the 400-entry cap; `save` serialises `data` to the
JSON file and `load` deserialises it back (`json.dump` / `json.load`
are modelled at the level of the JSON value they exchange). -/

/-- One history record: `{time, role, text}`. -/
structure HistoryEntry where
  time : String
  role : String
  text : String
deriving DecidableEq, Repr

/-- The persisted memory record. -/
structure MemoryData where
  user_name : Option String
  preferences : List (String × String)
  history : List HistoryEntry
deriving DecidableEq, Repr

/-- The default record installed by `Memory.__init__` (and by
`handle_reset`). -/
def freshMemory : MemoryData :=
  { user_name := none, preferences := [], history := [] }

/-- The history update inside `Memory.add_history`: append, then keep
only the last 400 entries when the cap is exceeded. -/
def histAppend (h : List HistoryEntry) (e : HistoryEntry) : List HistoryEntry :=
  let h' := h ++ [e]
  if 400 < h'.length then h'.drop (h'.length - 400) else h'

/-- JSON values (the fragment `bot_memory.json` uses: strings, null,
arrays, objects). -/
inductive Json where
  | jnull
  | jstr (s : String)
  | jarr (xs : List Json)
  | jobj (fields : List (String × Json))

/-- Serialisation of one history entry. -/
def entryToJson (e : HistoryEntry) : Json :=
  .jobj [("time", .jstr e.time), ("role", .jstr e.role), ("text", .jstr e.text)]

/-- Deserialisation of one history entry. -/
def entryFromJson : Json → Option HistoryEntry
  | .jobj [("time", .jstr t), ("role", .jstr r), ("text", .jstr x)] =>
    some { time := t, role := r, text := x }
  | _ => none

/-- `Memory.save`: the JSON value written by `json.dump(self.data, f)`.
The record is dumped verbatim — in particular the history list is
written at whatever length it currently has. -/
def memToJson (d : MemoryData) : Json :=
  .jobj [("user_name", match d.user_name with | none => .jnull | some n => .jstr n),
         ("preferences", .jobj (d.preferences.map (fun p => (p.1, Json.jstr p.2)))),
         ("history", .jarr (d.history.map entryToJson))]

/-- Decode the preferences object entry by entry. -/
def decodePrefs : List (String × Json) → Option (List (String × String))
  | [] => some []
  | (k, .jstr v) :: rest => (decodePrefs rest).map (fun l => (k, v) :: l)
  | _ => none

/-- Decode the history array element by element. -/
def decodeHist : List Json → Option (List HistoryEntry)
  | [] => some []
  | j :: rest => do
    let e ← entryFromJson j
    let l ← decodeHist rest
    some (e :: l)

/-- `Memory.load`: `json.load` hands back the dumped structure, which
is assigned wholesale to `self.data`; a value of any other shape would
have come from a foreign file. -/
def memFromJson : Json → Option MemoryData
  | .jobj [("user_name", u), ("preferences", .jobj ps), ("history", .jarr hs)] => do
    let un ← match u with
      | .jnull => some none
      | .jstr n => some (some n)
      | _ => none
    let prefs ← decodePrefs ps
    let hist ← decodeHist hs
    some { user_name := un, preferences := prefs, history := hist }
  | _ => none

/-! ## Intent classifier (`new.py` lines 206-232)

Each pattern is a function from the text to `Option (Option String)`:
`none` = no match, `some g` = a match whose first capture group is `g`.
The `re.I` flags on the source patterns are immaterial here because
`detect_intent` is only ever applied to text that has already been
lowercased (`normalize`, both in `handle` and in `handle_summary`), so
the literals are written lowercase and matched as given. -/

/-- Leftmost occurrence of `\b<lit>(.+)`: scan for a word-bounded
occurrence of the literal followed by a nonempty remainder; the greedy
group captures everything to the end of the string. -/
def scanLitCap (w : List Char) : Option Char → List Char → Option String
  | _, [] => none
  | prev, c :: cs =>
    if wbound prev w.head? && listPre w (c :: cs) && !((c :: cs).drop w.length).isEmpty then
      some (String.mk ((c :: cs).drop w.length))
    else
      scanLitCap w (some c) cs

/-- `^/<cmd>\s+(.+)$` for a command word of `n` characters: after the
literal, one-or-more whitespace characters, then a nonempty capture
running to the end (the greedy whitespace run backtracks by one
character when everything after it is blank). -/
def cmdArgCap (cmd : String) (s : String) : Option String :=
  let l := s.toList
  if listPre cmd.toList l then
    let rest := l.drop cmd.length
    let w := (takeRun pyWsChar rest).1.length
    let k := min w (rest.length - 1)
    if k = 0 then none else some (String.mk (rest.drop k))
  else none

/-- `INTENT_PATTERNS` (`new.py` lines 206-221), in source order. -/
def INTENT_PATTERNS : List (String × (String → Option (Option String))) :=
  [("greet", fun s =>
      if wordAltOccurs ["hi", "hello", "hey", "assalam", "salam"] s then some none else none),
   ("goodbye", fun s =>
      if wordAltOccurs ["bye", "goodbye", "see you", "tata"] s then some none else none),
   ("set_name", fun s =>
      (scanLitCap ("my name is ".toList) none s.toList).map some),
   ("ask_time", fun s =>
      if wordAltOccurs ["time", "clock", "what time"] s then some none else none),
   ("ask_date", fun s =>
      if wordAltOccurs ["date", "today"] s then some none else none),
   ("calculator", fun s =>
      if strStarts "=" s || wordAltOccurs ["calc", "calculate", "evaluate"] s then some none else none),
   ("faq", fun s =>
      if wordAltOccurs ["sunk cost", "opportunity cost", "npv", "irr", "capm",
                        "beta", "perpetuity", "4p", "stp", "swot", "kpi", "lean",
                        "six sigma"] s then some none else none),
   ("load_csv", fun s => (cmdArgCap "/loadcsv" s).map some),
   ("setname_cmd", fun s => (cmdArgCap "/setname" s).map some),
   ("help", fun s => if s = "/help" then some none else none),
   ("reset", fun s => if s = "/reset" then some none else none),
   ("export", fun s => if s = "/export_history" then some none else none),
   ("summary", fun s => if s = "/summary" then some none else none),
   ("complaint", fun s =>
      if wordAltOccurs ["complain", "issue", "problem", "refund", "return", "support"] s
      then some none else none)]

/-- The loop inside `detect_intent`: try the patterns strictly in
order, returning the first match with its intent name. -/
def findIntent : List (String × (String → Option (Option String))) → String →
    Option (String × Option String)
  | [], _ => none
  | (n, p) :: rest, t =>
    match p t with
    | some g => some (n, g)
    | none => findIntent rest t

/-- `detect_intent` (`new.py` lines 224-232).  The second component is
the match object: `none` when the fallback fired (no pattern matched),
`some g` for a match with optional first group `g`. -/
def detectIntent (text : String) : String × Option (Option String) :=
  match findIntent INTENT_PATTERNS text with
  | some (n, g) => (n, some g)
  | none =>
    if strIncl "help" text || strIncl "commands" text then ("help", none)
    else ("smalltalk", none)

/-! ## CSV quick insights (`new.py` lines 343-379)

Loading the file itself (`csv.DictReader`) is an external capability:
the environment supplies, per path, the header list and the rows as
header-to-string mappings.  The statistics are over rationals; the
values the source handles are IEEE doubles, whose arithmetic on the
inputs exercised here is exact except for the final square root, which
the model rounds from the real value (a correctly rounded `sqrt`
followed by `%.3f` agrees with this on non-tie values). -/

/-- A CSV row as produced by `csv.DictReader`: a header-to-value
association (cells that the reader reports as `None` are omitted,
which the two consuming code paths treat identically). -/
def CsvRow := List (String × String)

/-- `row.get(h)` / `row[h]` as an optional lookup. -/
def rowGet (r : CsvRow) (h : String) : Option String :=
  (List.find? (fun p => p.1 = h) r).map (fun p => p.2)

/-- Parse the part of a Python float literal after any sign: digits
with an optional fraction, then an optional exponent.  Underscore
digit separators (accepted by Python's `float`) are outside the model;
none appear in any exercised input. -/
def floatCore (l : List Char) : Option ℚ :=
  let (ds, r1) := takeRun Char.isDigit l
  match r1 with
  | '.' :: r2 =>
    let (fs, r3) := takeRun Char.isDigit r2
    if ds.isEmpty && fs.isEmpty then none
    else floatExpPart ((digitsToNat ds : ℚ) + (digitsToNat fs : ℚ) / (10 ^ fs.length : ℚ)) r3
  | _ =>
    if ds.isEmpty then none
    else floatExpPart (digitsToNat ds : ℚ) r1
where
  /-- Optional `[eE][+-]?digits` suffix, which must consume the rest. -/
  floatExpPart (base : ℚ) : List Char → Option ℚ
  | [] => some base
  | c :: rest =>
    if c = 'e' || c = 'E' then
      match rest with
      | '+' :: r2 =>
        let (es, r3) := takeRun Char.isDigit r2
        if es.isEmpty || !r3.isEmpty then none else some (base * 10 ^ digitsToNat es)
      | '-' :: r2 =>
        let (es, r3) := takeRun Char.isDigit r2
        if es.isEmpty || !r3.isEmpty then none else some (base / 10 ^ digitsToNat es)
      | r2 =>
        let (es, r3) := takeRun Char.isDigit r2
        if es.isEmpty || !r3.isEmpty then none else some (base * 10 ^ digitsToNat es)
    else none

/-- Python `float(s)` restricted to finite results: strip whitespace,
optional sign, then a numeric literal.  The non-finite literals
(`nan`, `inf`, ...) are accepted by `float` but have no rational
value; `nonFiniteLit` recognises them separately. -/
def tryFloat (s : String) : Option ℚ :=
  match (pyStrip s).toList with
  | '+' :: r => floatCore r
  | '-' :: r => (floatCore r).map Neg.neg
  | l => floatCore l

/-- Python `float(s)` succeeds with a non-finite value. -/
def nonFiniteLit (s : String) : Bool :=
  let t := pyLower (pyStrip s)
  let t' := if strStarts "+" t || strStarts "-" t then strDrop 1 t else t
  t' = "nan" || t' = "inf" || t' = "infinity"

/-- Does `float(s)` succeed at all? -/
def isNumericStr (s : String) : Bool :=
  (tryFloat s).isSome || nonFiniteLit s

/-- `next((r[h] for r in rows if r.get(h) not in (None, '')), 'nan')`:
the first non-empty value of column `h`, defaulting to the literal
`'nan'` (which `float` accepts, so a column with no non-empty value
also counts as numeric — a quirk preserved from the source). -/
def firstNonEmptyVal (rows : List CsvRow) (h : String) : String :=
  (rows.findSome? (fun r =>
    match rowGet r h with
    | some v => if v ≠ "" then some v else none
    | none => none)).getD "nan"

/-- The numeric-column scan: headers whose probe value parses. -/
def numericCols (headers : List String) (rows : List CsvRow) : List String :=
  headers.filter (fun h => isNumericStr (firstNonEmptyVal rows h))

/-- The value-collection loop: `try: vals.append(float(r[col])) except:
pass` — parse each row's cell, skipping rows whose cell is missing or
unparsable.  (A cell holding a non-finite literal would append a NaN
or infinity in Python and poison the statistics; no claim and no
exercised dataset contains one, and the rational model skips it.) -/
def collectVals (rows : List CsvRow) (col : String) : List ℚ :=
  match rows with
  | [] => []
  | r :: rest =>
    match (rowGet r col).bind tryFloat with
    | some v => v :: collectVals rest col
    | none => collectVals rest col

/-- Sum of a list of rationals. -/
def qsum (l : List ℚ) : ℚ := l.foldl (· + ·) 0

/-- `statistics.mean`. -/
def qmean (l : List ℚ) : ℚ := qsum l / l.length

/-- `statistics.median`: middle of the sorted list, or the average of
the two middle elements. -/
def qmedian (l : List ℚ) : ℚ :=
  let s := List.insertionSort (· ≤ ·) l
  let n := s.length
  if n % 2 = 1 then s.getD (n / 2) 0
  else (s.getD (n / 2 - 1) 0 + s.getD (n / 2) 0) / 2

/-- Population variance (divisor = count), the square of
`statistics.pstdev`. -/
def pvariance (l : List ℚ) : ℚ :=
  qsum (l.map (fun x => (x - qmean l) ^ 2)) / l.length

/-- Round to the nearest integer, ties to even (the rounding of
`%.3f` applied to `1000 * x`; the exercised values are not ties). -/
def roundHalfEven (x : ℚ) : ℤ :=
  let f := ⌊x⌋
  let r := x - f
  if r < 1 / 2 then f
  else if 1 / 2 < r then f + 1
  else if f % 2 = 0 then f else f + 1

/-- Digits of a thousandths value: `milliStr 816 = "0.816"`,
`milliStr 2000 = "2.000"` (non-negative argument renders unsigned). -/
def milliStr (n : ℤ) : String :=
  let a := n.natAbs
  let sign := if n < 0 then "-" else ""
  let r := a % 1000
  let pad := if r < 10 then "00" else if r < 100 then "0" else ""
  sign ++ toString (a / 1000) ++ "." ++ pad ++ toString r

/-- Python `f"{x:.3f}"` on an exactly represented value. -/
def fmt3 (x : ℚ) : String := milliStr (roundHalfEven (1000 * x))

/-- Bisection step for the integer square root (binary search on
`lo < hi` with the invariant `lo^2 ≤ n < hi^2`). -/
def isqrtGo (n : Nat) : Nat → Nat → Nat → Nat
  | 0, lo, _ => lo
  | fuel + 1, lo, hi =>
    if hi ≤ lo + 1 then lo
    else
      let m := (lo + hi) / 2
      if m * m ≤ n then isqrtGo n fuel m hi else isqrtGo n fuel lo m

/-- Integer square root by bisection (70 halvings cover every `Nat`
below `2 ^ 69`, far beyond any value arising here). -/
def isqrtBS (n : Nat) : Nat := isqrtGo n 70 0 (n + 1)

/-- Round `1000 * sqrt v` to the nearest integer for `v ≥ 0`, by exact
integer arithmetic: `(isqrt (floor (4 * 10^6 * v)) + 1) / 2` equals
`round (1000 * sqrt v)` (the tie `sqrt v = k + 1/2` would force
`4 * 10^6 * v` to be an odd perfect square times an even number,
impossible for the values arising from `pstdev`; ties round up). -/
def sqrtRound3 (v : ℚ) : ℤ :=
  ((isqrtBS (4000000 * v).floor.toNat + 1) / 2 : Nat)

/-- The displayed `f"{stats.pstdev(vals):.3f}"`: three-decimal rounding
of the square root of the population variance. -/
def stdevFmt3 (vals : List ℚ) : String :=
  milliStr (sqrtRound3 (pvariance vals))

/-- The second message line of `handle_load_csv` once a numeric column
with parseable values is found. -/
def statsLine (col : String) (vals : List ℚ) : String :=
  "Quick stats for '" ++ col ++ "': count=" ++ toString vals.length ++
  ", mean=" ++ fmt3 (qmean vals) ++ ", median=" ++ fmt3 (qmedian vals) ++
  ", stdev=" ++ stdevFmt3 vals

/-! ## Chatbot state and environment (`new.py` lines 236-458)

The mutable `Chatbot` object becomes `BotState`; the ambient
nondeterminism is an `Env` of streams: `rand` backs `random.randint`
and `random.choice`, `times` backs `now_str()` (one entry consumed per
call), `todayStr` is the day's date line, and `csvFiles` is the
filesystem capability used by `/loadcsv` (header list plus rows).
`Memory.save` has no observable in-session effect and persistence is
modelled by `memToJson` / `memFromJson`; the history file written by
`/export_history` is recorded in the `exported` field. -/

/-- The ambient environment of nondeterministic inputs. -/
structure Env where
  rand : Nat → Nat
  times : Nat → String
  todayStr : String
  csvFiles : String → Option (List String × List CsvRow)

/-- `self.pending_task`, a dict tagged by `"type"` with the three
complaint slots. -/
structure PendingTask where
  type_ : String
  product : Option String
  issue : Option String
  order_id : Option String
deriving DecidableEq, Repr

/-- The mutable fields of `Chatbot` (plus the stream cursors and the
record of the exported history file). -/
structure BotState where
  mem : MemoryData
  pending : Option PendingTask
  loaded_csv : Option String
  csv_headers : List String
  csv_rows : List CsvRow
  rngIdx : Nat
  timeIdx : Nat
  exported : Option (List String)

/-- A fresh `Chatbot` whose memory file was absent (default memory). -/
def initState : BotState :=
  { mem := freshMemory, pending := none, loaded_csv := none,
    csv_headers := [], csv_rows := [], rngIdx := 0, timeIdx := 0,
    exported := none }

/-- `now_str()`: read the clock stream and advance it. -/
def nowStr (env : Env) (st : BotState) : String × BotState :=
  (env.times st.timeIdx, { st with timeIdx := st.timeIdx + 1 })

/-- `Memory.add_history`: stamp, append, enforce the 400-entry cap
(the write-through `save` has no in-session effect). -/
def addHistory (env : Env) (st : BotState) (role text : String) : BotState :=
  let (t, st') := nowStr env st
  { st' with mem := { st'.mem with
      history := histAppend st'.mem.history { time := t, role := role, text := text } } }

/-- `Chatbot.reply`: record the assistant turn, hand back the text. -/
def botReply (env : Env) (st : BotState) (text : String) : String × BotState :=
  (text, addHistory env st "assistant" text)

/-- `random.randint(a, b)` (inclusive bounds): the next stream value
reduced into the range. -/
def randint (env : Env) (st : BotState) (a b : Nat) : Nat × BotState :=
  (a + env.rand st.rngIdx % (b - a + 1), { st with rngIdx := st.rngIdx + 1 })

/-- `random.choice(l)` for the fixed non-empty reply tables. -/
def pyChoice (env : Env) (st : BotState) (l : List String) : String × BotState :=
  (l.getD (env.rand st.rngIdx % l.length) "", { st with rngIdx := st.rngIdx + 1 })

/-- `handle_greet`: personal greeting when a (truthy) name is stored,
else a random greeting. -/
def handleGreet (env : Env) (st : BotState) : String × BotState :=
  match st.mem.user_name with
  | some n =>
    if n ≠ "" then botReply env st ("Hello " ++ n ++ "! How can I help today?")
    else
      let (g, st') := pyChoice env st GREETINGS
      botReply env st' g
  | none =>
    let (g, st') := pyChoice env st GREETINGS
    botReply env st' g

/-- `handle_goodbye`. -/
def handleGoodbye (env : Env) (st : BotState) : String × BotState :=
  let (g, st') := pyChoice env st GOODBYES
  botReply env st' g

/-- `handle_set_name`: first whitespace token of the capture, squared
up with `title()`.  (On an all-whitespace capture Python would raise
`IndexError`; that cannot reach here because `normalize` strips
trailing whitespace, so the capture ends in a non-space character.) -/
def handleSetName (env : Env) (st : BotState) (cap : String) : String × BotState :=
  let name := pyTitle ((splitWs (pyStrip cap)).headD "")
  let st' := { st with mem := { st.mem with user_name := some name } }
  botReply env st' ("Nice to meet you, " ++ name ++ "! I'll remember your name.")

/-- `handle_setname_cmd`. -/
def handleSetnameCmd (env : Env) (st : BotState) (cap : String) : String × BotState :=
  let name := pyTitle (pyStrip cap)
  let st' := { st with mem := { st.mem with user_name := some name } }
  botReply env st' ("Got it! I'll call you " ++ name ++ ".")

/-- `handle_time`. -/
def handleTime (env : Env) (st : BotState) : String × BotState :=
  let (t, st') := nowStr env st
  botReply env st' ("Current time: " ++ t)

/-- `handle_date`. -/
def handleDate (env : Env) (st : BotState) : String × BotState :=
  botReply env st ("Today is " ++ env.todayStr ++ ".")

/-- The `/help` text. -/
def HELP_TEXT : String :=
  "Commands:\n  /help                Show this help\n  /setname Name        Save your name\n  /loadcsv path.csv    Load a CSV and get insights\n  /summary             Summarize our recent chat\n  /export_history      Save conversation to chat_history.txt\n  /reset               Clear memory (name & history)\n\nOther features:\n- Type 'sunk cost', 'NPV', 'CAPM', etc. for quick BBA FAQs\n- Start a complaint (say 'I have a problem...') to open a support ticket\n- Calculator: start with '=' or type 'calculate 2*(10+5)'\n- Ask date/time, casual chat, and more!"

/-- `handle_help`. -/
def handleHelp (env : Env) (st : BotState) : String × BotState :=
  botReply env st HELP_TEXT

/-- `handle_export`: write the formatted history lines to
`chat_history.txt` (recorded in `exported`). -/
def handleExport (env : Env) (st : BotState) : String × BotState :=
  let lines := st.mem.history.map (fun h =>
    "[" ++ h.time ++ "] " ++ pyUpper h.role ++ ": " ++ h.text)
  let st' := { st with exported := some lines }
  botReply env st' "History exported to chat_history.txt (in the current folder)."

/-- Deduplicate keeping first occurrences (stands in for Python's
`set(intents)`, whose iteration order is unspecified; only the bullet
order of the summary string can differ). -/
def firstDedup (l : List String) : List String :=
  l.foldl (fun acc k => if acc.contains k then acc else acc ++ [k]) []

/-- `handle_summary`: classify the user turns among the last 20
history entries and report per-intent counts. -/
def handleSummary (env : Env) (st : BotState) : String × BotState :=
  let hist := st.mem.history.drop (st.mem.history.length - 20)
  let userMsgs := (hist.filter (fun h => h.role = "user")).map (fun h => h.text)
  let intents := userMsgs.map (fun u => (detectIntent (normalizeText u)).1)
  let keys := firstDedup intents
  let bullets := String.intercalate ", "
    (keys.map (fun k => k ++ "Ã—" ++ toString (intents.count k)))
  let bullets := if bullets = "" then "varied topics" else bullets
  botReply env st ("Recent summary: we discussed " ++ bullets ++
    ". I also saved your name if you set it.")

/-- `handle_reset`: replace the memory record with the default and
confirm (the confirmation itself is then appended to the fresh
history by `reply`). -/
def handleReset (env : Env) (st : BotState) : String × BotState :=
  botReply env { st with mem := freshMemory } "Memory cleared. Fresh start!"

/-- The `re.sub(r"^(calc(ulate)?|evaluate)\s+", "", expr, flags=re.I)`
step of `handle_calculator`: drop one leading keyword and the
whitespace run after it (the greedy optional `ulate` backtracks, so
`calculate` is tried before `calc`). -/
def stripCalcWord (expr : String) : String :=
  let l := expr.toList
  let low := (pyLower expr).toList
  let tryWord := fun (w : List Char) =>
    if listPre w low then
      let k := (takeRun pyWsChar (low.drop w.length)).1.length
      if 1 ≤ k then some (String.mk (l.drop (w.length + k))) else none
    else none
  match tryWord "calculate".toList with
  | some r => r
  | none =>
    match tryWord "calc".toList with
    | some r => r
    | none =>
      match tryWord "evaluate".toList with
      | some r => r
      | none => expr

/-- Printed form of a result value (`f"Result: {val}"`): integers
print bare; a non-integer rational is shown as a fraction (the decimal
repr of a Python float is outside the model and no claim touches it). -/
def ratRepr (v : ℚ) : String :=
  if v.den = 1 then toString v.num
  else toString v.num ++ "/" ++ toString v.den

/-- `handle_calculator` (`new.py` lines 324-334). -/
def handleCalculator (env : Env) (st : BotState) (raw : String) : String × BotState :=
  let expr := if strStarts "=" (pyStrip raw) then strDrop 1 (pyStrip raw) else raw
  let expr := stripCalcWord expr
  match safeEvalStr expr with
  | .ok v => botReply env st ("Result: " ++ ratRepr v)
  | .error e => botReply env st ("Sorry, I couldn't evaluate that. (" ++ e ++ ")")

/-- `handle_faq`: first FAQ key (in table order) contained in the
normalized text. -/
def handleFaq (env : Env) (st : BotState) (text : String) : String × BotState :=
  match FAQ.find? (fun p => strIncl p.1 text) with
  | some p => botReply env st (pyTitle p.1 ++ ": " ++ p.2)
  | none => botReply env st "I didn't find that topic. Try /help for supported FAQs."

/-- `handle_load_csv` (`new.py` lines 343-379): resolve the path, load
headers and rows through the capability, report emptiness or the
quick statistics of the first numeric column. -/
def handleLoadCsv (env : Env) (st : BotState) (cap : String) : String × BotState :=
  let path := stripQuotes (pyStrip cap)
  match env.csvFiles path with
  | none => botReply env st "CSV not found. Please provide a valid path."
  | some (headers, rows) =>
    let st := { st with loaded_csv := some path, csv_headers := headers, csv_rows := rows }
    if rows.isEmpty then
      botReply env st ("Loaded " ++ path ++ ", but it has no rows.")
    else
      let msg1 := "Loaded " ++ path ++ " with " ++ toString rows.length ++
        " rows and " ++ toString headers.length ++ " columns."
      match numericCols headers rows with
      | [] => botReply env st msg1
      | col :: _ =>
        let vals := collectVals rows col
        if vals.isEmpty then botReply env st msg1
        else botReply env st (msg1 ++ "\n" ++ statsLine col vals)

/-- `slots['order_id'] or 'N/A'`: Python `or` falls through on `None`
and on the empty string. -/
def orderDisplay : Option String → String
  | none => "N/A"
  | some s => if s = "" then "N/A" else s

/-- `handle_complaint` (`new.py` lines 382-407): start a ticket when
no complaint task is pending, otherwise fill the next empty slot; on
the last slot generate the ticket id, clear the task and confirm. -/
def handleComplaint (env : Env) (st : BotState) (text : String) : String × BotState :=
  match st.pending with
  | none =>
    botReply env
      { st with pending := some { type_ := "complaint", product := none, issue := none, order_id := none } }
      "I'm opening a support ticket. What product is this about?"
  | some tk =>
    if tk.type_ ≠ "complaint" then
      botReply env
        { st with pending := some { type_ := "complaint", product := none, issue := none, order_id := none } }
        "I'm opening a support ticket. What product is this about?"
    else
      match tk.product with
      | none =>
        botReply env { st with pending := some { tk with product := some text } }
          "Got it. Briefly describe the issue."
      | some p =>
        match tk.issue with
        | none =>
          botReply env { st with pending := some { tk with issue := some text } }
            "Please share your order ID (or say 'none')."
        | some i =>
          match tk.order_id with
          | none =>
            let oid := pyStrip text
            let stored := if pyLower oid = "none" then none else some oid
            let (n, st₁) := randint env st 10000 99999
            botReply env { st₁ with pending := none }
              ("Thanks! Ticket TKT-" ++ toString n ++ " created. Product: " ++ p ++
               ". Issue: " ++ i ++ ". Order ID: " ++ orderDisplay stored ++
               ". Our team will follow up.")
          | some _ =>
            botReply env st "Your ticket is already created. Anything else?"

/-- `handle_smalltalk`: bucket by sentiment score, random surface
form inside the positive and neutral buckets. -/
def handleSmalltalk (env : Env) (st : BotState) (text : String) : String × BotState :=
  let s := sentiment_score text
  if s > 1 / 50 then
    let (c, st') := pyChoice env st SMALLTALK
    botReply env st' (c ++ " ðŸ˜Š")
  else if s < -(1 / 50) then
    botReply env st "Sorry to hear that. Tell me moreâ€”maybe I can help."
  else
    let (c, st') := pyChoice env st SMALLTALK
    botReply env st' c

/-- The intent-dispatch tail of `Chatbot.handle` (`new.py` lines
428-458): classify the normalized text and route to the handler;
handlers that need the raw line receive it. -/
def dispatchIntent (env : Env) (st : BotState) (raw norm : String) : String × BotState :=
  let (intent, m) := detectIntent norm
  if intent = "greet" then handleGreet env st
  else if intent = "goodbye" then handleGoodbye env st
  else if intent = "set_name" ∧ m.isSome then handleSetName env st ((m.getD none).getD "")
  else if intent = "ask_time" then handleTime env st
  else if intent = "ask_date" then handleDate env st
  else if intent = "calculator" then handleCalculator env st raw
  else if intent = "faq" then handleFaq env st norm
  else if intent = "load_csv" ∧ m.isSome then handleLoadCsv env st ((m.getD none).getD "")
  else if intent = "setname_cmd" ∧ m.isSome then handleSetnameCmd env st ((m.getD none).getD "")
  else if intent = "help" then handleHelp env st
  else if intent = "reset" then handleReset env st
  else if intent = "export" then handleExport env st
  else if intent = "summary" then handleSummary env st
  else if intent = "complaint" then handleComplaint env st raw
  else handleSmalltalk env st raw

/-- `Chatbot.handle` (`new.py` lines 418-458): normalize, record the
user turn, give priority to an active complaint task unless the input
is a command line, otherwise dispatch through the classifier. -/
def handle (env : Env) (st : BotState) (userText : String) : String × BotState :=
  let norm := normalizeText userText
  let st₁ := addHistory env st "user" userText
  match st₁.pending with
  | some tk =>
    if !(strStarts "/" norm) && tk.type_ = "complaint" then
      handleComplaint env st₁ userText
    else
      dispatchIntent env st₁ userText norm
  | none => dispatchIntent env st₁ userText norm

/-! ## General lemmas used by the claim theorems -/

theorem listPre_append_self (n t : List Char) : listPre n (n ++ t) = true := by
  induction n with
  | nil => rfl
  | cons c cs ih => simp [listPre, ih]

theorem listIncl_of_listPre {n h : List Char} (hp : listPre n h = true) :
    listIncl n h = true := by
  cases h with
  | nil =>
    simpa [listIncl] using hp
  | cons c cs =>
    simp [listIncl, hp]

theorem listIncl_append_left {n t : List Char} (h : listIncl n t = true) (s : List Char) :
    listIncl n (s ++ t) = true := by
  induction s with
  | nil => simpa using h
  | cons c cs ih => simp [listIncl, ih]

/-- A string occurs inside any concatenation that has it as the middle
block. -/
theorem strIncl_middle (a m b : String) : strIncl m (a ++ (m ++ b)) = true := by
  show listIncl m.data (a ++ (m ++ b)).data = true
  rw [String.data_append, String.data_append]
  exact listIncl_append_left
    (listIncl_of_listPre (listPre_append_self m.data b.data)) a.data

theorem addHistory_pending (env : Env) (st : BotState) (r x : String) :
    (addHistory env st r x).pending = st.pending := rfl

theorem addHistory_rngIdx (env : Env) (st : BotState) (r x : String) :
    (addHistory env st r x).rngIdx = st.rngIdx := rfl

theorem addHistory_timeIdx (env : Env) (st : BotState) (r x : String) :
    (addHistory env st r x).timeIdx = st.timeIdx + 1 := rfl

theorem botReply_fst (env : Env) (st : BotState) (x : String) :
    (botReply env st x).1 = x := rfl

/-- Appending one entry to an empty history yields that entry alone. -/
theorem histAppend_nil (e : HistoryEntry) : histAppend [] e = [e] := by
  simp [histAppend]

/-- The two branches of `add_history` collapse to one drop formula
(`Nat` subtraction truncates at zero). -/
theorem histAppend_eq_drop (h : List HistoryEntry) (e : HistoryEntry) :
    histAppend h e = (h ++ [e]).drop ((h ++ [e]).length - 400) := by
  show (if 400 < (h ++ [e]).length then (h ++ [e]).drop ((h ++ [e]).length - 400)
        else h ++ [e]) = _
  split
  · rfl
  · next hnot =>
    have h0 : (h ++ [e]).length - 400 = 0 := by omega
    rw [h0, List.drop_zero]

theorem entryFromJson_entryToJson (e : HistoryEntry) :
    entryFromJson (entryToJson e) = some e := rfl

theorem decodeHist_map (l : List HistoryEntry) :
    decodeHist (l.map entryToJson) = some l := by
  induction l with
  | nil => rfl
  | cons e es ih => simp [decodeHist, entryFromJson_entryToJson, ih]

theorem decodePrefs_map (l : List (String × String)) :
    decodePrefs (l.map (fun p => (p.1, Json.jstr p.2))) = some l := by
  induction l with
  | nil => rfl
  | cons p ps ih =>
    simp [decodePrefs, ih]

/-- Persistence round-trip: decoding the dumped record restores it
exactly, whatever the history length. -/
theorem memFromJson_memToJson (d : MemoryData) :
    memFromJson (memToJson d) = some d := by
  obtain ⟨un, prefs, hist⟩ := d
  cases un <;>
    simp [memToJson, memFromJson, decodeHist_map, decodePrefs_map]

/-- Stepwise capping equals capping once at the end: folding
`add_history` from any state within the cap keeps exactly the most
recent 400 entries of the accumulated sequence. -/
theorem foldl_histAppend (es : List HistoryEntry) :
    ∀ h : List HistoryEntry, h.length ≤ 400 →
      List.foldl histAppend h es = (h ++ es).drop ((h ++ es).length - 400) := by
  induction es with
  | nil =>
    intro h hle
    have h0 : (h ++ ([] : List HistoryEntry)).length - 400 = 0 := by
      simp; omega
    rw [List.foldl_nil, h0, List.drop_zero, List.append_nil]
  | cons e es ih =>
    intro h hle
    have hx : (h ++ [e]).length = h.length + 1 := by simp
    have hlen : (histAppend h e).length ≤ 400 := by
      rw [histAppend_eq_drop, List.length_drop]
      omega
    rw [List.foldl_cons, ih (histAppend h e) hlen, histAppend_eq_drop]
    have hd : (h ++ [e]).length - 400 ≤ (h ++ [e]).length := Nat.sub_le _ _
    rw [← List.drop_append_of_le_length hd, List.drop_drop]
    have harr : h ++ [e] ++ es = h ++ e :: es := by simp
    rw [harr]
    have hlen3 : (List.drop ((h ++ [e]).length - 400) (h ++ e :: es)).length
        = (h ++ e :: es).length - ((h ++ [e]).length - 400) := by
      simp
    have h3 : (h ++ e :: es).length = h.length + 1 + es.length := by
      simp
      omega
    have hnat : (h ++ [e]).length - 400
          + ((List.drop ((h ++ [e]).length - 400) (h ++ e :: es)).length - 400)
        = (h ++ e :: es).length - 400 := by
      rw [hlen3, h3, hx]
      omega
    rw [hnat]

/-- Fail-closed in the weak sense: a tree containing a node kind
outside `ALLOWED_NODES` never evaluates to a value.  The error may be
the `Unsupported expression` raised at the offending node or an
arithmetic error hit earlier in the recursion. -/
theorem evalA_error_of_containsBad :
    ∀ t : PyExpr, containsBad t = true → ∃ msg, evalA t = Except.error msg
  | .num _, h => by simp [containsBad] at h
  | .strConst _, h => by simp [containsBad] at h
  | .name _, h => by simp [containsBad] at h
  | .call _ _, _ => ⟨"Unsupported expression", rfl⟩
  | .cmp _ _, _ => ⟨"Unsupported expression", rfl⟩
  | .unop op e, h => by
    have h' : containsBad e = true := by simpa [containsBad] using h
    obtain ⟨m, hm⟩ := evalA_error_of_containsBad e h'
    refine ⟨m, ?_⟩
    simp only [evalA]
    rw [hm]
    rfl
  | .binop op l r, h => by
    have hbad : allowedBOp op = false ∨ containsBad l = true ∨ containsBad r = true := by
      cases hao : allowedBOp op
      · exact Or.inl rfl
      · have h' := h
        simp only [containsBad, hao, Bool.not_true, Bool.false_or, Bool.or_eq_true] at h'
        exact Or.inr h'
    cases hL : evalA l with
    | error eL =>
      refine ⟨eL, ?_⟩
      simp only [evalA]
      rw [hL]
      rfl
    | ok vL =>
      cases hR : evalA r with
      | error eR =>
        refine ⟨eR, ?_⟩
        simp only [evalA]
        rw [hL, hR]
        rfl
      | ok vR =>
        have hlgood : containsBad l = false := by
          cases hcl : containsBad l
          · rfl
          · obtain ⟨m, hm⟩ := evalA_error_of_containsBad l hcl
            rw [hm] at hL
            cases hL
        have hrgood : containsBad r = false := by
          cases hcr : containsBad r
          · rfl
          · obtain ⟨m, hm⟩ := evalA_error_of_containsBad r hcr
            rw [hm] at hR
            cases hR
        have hop : allowedBOp op = false := by
          rcases hbad with h1 | h2 | h3
          · exact h1
          · rw [hlgood] at h2; cases h2
          · rw [hrgood] at h3; cases h3
        cases op <;> simp [allowedBOp] at hop
        refine ⟨"Unsupported expression", ?_⟩
        simp only [evalA]
        rw [hL, hR]
        rfl

deriving instance DecidableEq for Except

/-- A tree whose right addend is a `Compare` node (outside
`ALLOWED_NODES`) and whose left addend divides by zero: the Python
expression `1/0 + (1 < 2)`. -/
def badTree : PyExpr :=
  .binop .add (.binop .div (.num 1) (.num 0)) (.cmp (.num 1) (.num 2))

/-- C3 counterexample: the claim says an expression whose tree holds a
node kind outside the allow-list fails *before any arithmetic of any
subexpression* (rejection at the allow-list stage).  On `badTree` the
evaluator instead performs the division of the left subexpression and
surfaces *its* `ZeroDivisionError` — not the `Disallowed expression`
rejection that the (never invoked) `visit` allow-list check would
raise — so the disallowed node is discovered during evaluation. -/
theorem c3_counterexample :
    containsBad badTree = true ∧
    evalA badTree = Except.error "division by zero" ∧
    evalA badTree ≠ Except.error "Disallowed expression" := by
  refine ⟨rfl, rfl, ?_⟩
  decide

/-- C3 (amended): every input tree containing a node kind outside
`ALLOWED_NODES` evaluates to an error (fail-closed — no value is ever
produced), but the failure occurs during the recursive evaluation, not
before it: arithmetic of subexpressions evaluated before the offending
node is reached does run, and its own error may be the one surfaced. -/
theorem c3_fail_closed_amended (t : PyExpr) (h : containsBad t = true) :
    ∃ msg, evalA t = Except.error msg :=
  evalA_error_of_containsBad t h

/-- Witness for the amended C3 theorem at the concrete tree. -/
theorem c3_witness :
    containsBad badTree = true ∧ ∃ msg, evalA badTree = Except.error msg :=
  ⟨rfl, c3_fail_closed_amended badTree rfl⟩

/-- C5: after any sequence of appends starting from the empty history,
the history never exceeds 400 entries and is exactly the most recent
400 appended entries, in order (`drop` keeps the suffix). -/
theorem c5_history_cap_fifo (es : List HistoryEntry) :
    (List.foldl histAppend [] es).length ≤ 400 ∧
    List.foldl histAppend [] es = es.drop (es.length - 400) := by
  have h := foldl_histAppend es [] (by simp)
  simp only [List.nil_append] at h
  refine ⟨?_, h⟩
  rw [h, List.length_drop]
  omega

/-- A fixed environment for closed evaluations (deterministic streams,
one CSV file `data.csv` with the single column `Sales = [1, 2, 3]`). -/
def salesRows : List CsvRow := [[("Sales", "1")], [("Sales", "2")], [("Sales", "3")]]

/-- Environment used by the closed test evaluations. -/
def plainEnv : Env :=
  { rand := fun _ => 0, times := fun n => "t" ++ toString n,
    todayStr := "Monday, January 05, 2026",
    csvFiles := fun p => if p = "data.csv" then some (["Sales"], salesRows) else none }

unseal Rat.add Rat.mul Rat.inv Rat.sub in
/-- C7: `eval("2+2")` is `4`; `eval("10/0")` fails with the
divide-by-zero error (and `handle_calculator` surfaces it as a
calculator error reply rather than a crash); `eval("import os")`
fails to parse. -/
theorem c7_evaluator_examples :
    safeEvalStr "2+2" = Except.ok 4 ∧
    safeEvalStr "10/0" = Except.error "division by zero" ∧
    safeEvalStr "import os" = Except.error "invalid syntax" ∧
    (handleCalculator plainEnv initState "10/0").1
      = "Sorry, I couldn't evaluate that. (division by zero)" := by
  refine ⟨by decide, by decide, by decide, by decide⟩

unseal Rat.add Rat.mul Rat.inv Rat.sub in
/-- C8: the selected column's values are parsed with unparsable cells
skipped (the collection loop is pointwise `filterMap`), and on
`Sales = [1,2,3]` the insights line reports count=3, mean=2.000,
median=2.000 and the population standard deviation 0.816, as produced
end to end by `handle_load_csv`. -/
theorem c8_csv_stats :
    (∀ (rows : List CsvRow) (col : String),
      collectVals rows col = rows.filterMap (fun r => (rowGet r col).bind tryFloat)) ∧
    numericCols ["Sales"] salesRows = ["Sales"] ∧
    collectVals salesRows "Sales" = [1, 2, 3] ∧
    statsLine "Sales" (collectVals salesRows "Sales")
      = "Quick stats for 'Sales': count=3, mean=2.000, median=2.000, stdev=0.816" ∧
    (handleLoadCsv plainEnv initState "data.csv").1
      = "Loaded data.csv with 3 rows and 1 columns.\nQuick stats for 'Sales': count=3, mean=2.000, median=2.000, stdev=0.816" := by
  refine ⟨?_, by decide, by decide, by decide, by decide⟩
  intro rows col
  induction rows with
  | nil => rfl
  | cons r rest ih =>
    simp only [collectVals, List.filterMap_cons]
    cases (rowGet r col).bind tryFloat <;> simp [ih]

/-- The record used to refute the truncation clause of C9: a history
of 401 entries. -/
def longMem : MemoryData :=
  { user_name := none, preferences := [],
    history := List.replicate 401 { time := "t", role := "user", text := "x" } }

/-- C9 counterexample: persistence does not truncate.  A record with
401 history entries reloads with all 401 entries, not with the
FIFO-truncated 400-entry suffix the claim asserts for histories beyond
400 entries. -/
theorem c9_counterexample :
    memFromJson (memToJson longMem) = some longMem ∧
    longMem.history.length = 401 ∧
    longMem.history ≠ longMem.history.drop (longMem.history.length - 400) := by
  have hn : longMem.history.length = 401 := List.length_replicate 401 _
  refine ⟨memFromJson_memToJson longMem, hn, ?_⟩
  intro hcon
  have hlen := congrArg List.length hcon
  rw [List.length_drop, hn] at hlen
  omega

/-- C9 (amended): saving then reloading restores `user_name`,
`preferences` and `history` exactly, for histories of any length; the
400-entry FIFO truncation happens only inside `add_history`, never at
persistence time. -/
theorem c9_roundtrip_amended (d : MemoryData) :
    memFromJson (memToJson d) = some d :=
  memFromJson_memToJson d

/-- With an active complaint task, a non-command line is consumed by
the slot-filling handler. -/
theorem handle_pending_noncmd (env : Env) (st : BotState) (tk : PendingTask) (t : String)
    (h : st.pending = some tk) (ht : tk.type_ = "complaint")
    (hs : strStarts "/" (normalizeText t) = false) :
    handle env st t = handleComplaint env (addHistory env st "user" t) t := by
  unfold handle
  show (match (addHistory env st "user" t).pending with
    | some tk' =>
      if !(strStarts "/" (normalizeText t)) && tk'.type_ = "complaint" then
        handleComplaint env (addHistory env st "user" t) t
      else
        dispatchIntent env (addHistory env st "user" t) t (normalizeText t)
    | none => dispatchIntent env (addHistory env st "user" t) t (normalizeText t)) = _
  rw [addHistory_pending, h]
  simp [hs, ht]

/-- With an active task of any type, a command line bypasses the
slot-filling handler and goes through the classifier dispatch. -/
theorem handle_pending_cmd (env : Env) (st : BotState) (tk : PendingTask) (t : String)
    (h : st.pending = some tk) (hs : strStarts "/" (normalizeText t) = true) :
    handle env st t = dispatchIntent env (addHistory env st "user" t) t (normalizeText t) := by
  unfold handle
  show (match (addHistory env st "user" t).pending with
    | some tk' =>
      if !(strStarts "/" (normalizeText t)) && tk'.type_ = "complaint" then
        handleComplaint env (addHistory env st "user" t) t
      else
        dispatchIntent env (addHistory env st "user" t) t (normalizeText t)
    | none => dispatchIntent env (addHistory env st "user" t) t (normalizeText t)) = _
  rw [addHistory_pending, h]
  simp [hs]

/-- With no pending task every line goes through the classifier
dispatch. -/
theorem handle_no_pending (env : Env) (st : BotState) (t : String)
    (h : st.pending = none) :
    handle env st t = dispatchIntent env (addHistory env st "user" t) t (normalizeText t) := by
  unfold handle
  show (match (addHistory env st "user" t).pending with
    | some tk' =>
      if !(strStarts "/" (normalizeText t)) && tk'.type_ = "complaint" then
        handleComplaint env (addHistory env st "user" t) t
      else
        dispatchIntent env (addHistory env st "user" t) t (normalizeText t)
    | none => dispatchIntent env (addHistory env st "user" t) t (normalizeText t)) = _
  rw [addHistory_pending, h]

/-- C4: whenever a pending complaint task exists, an input whose
normalized form does not start with the command marker `/` is consumed
by the complaint slot-filling handler, and an input starting with `/`
is dispatched through the ordinary intent classifier instead. -/
theorem c4_pending_routing (env : Env) (st : BotState) (tk : PendingTask) (text : String)
    (h : st.pending = some tk) (ht : tk.type_ = "complaint") :
    handle env st text =
      if strStarts "/" (normalizeText text) = true then
        dispatchIntent env (addHistory env st "user" text) text (normalizeText text)
      else
        handleComplaint env (addHistory env st "user" text) text := by
  cases hsw : strStarts "/" (normalizeText text)
  · rw [if_neg (by simp)]
    exact handle_pending_noncmd env st tk text h ht hsw
  · rw [if_pos rfl]
    exact handle_pending_cmd env st tk text h hsw

/-- A complaint task with all slots still empty, and a state carrying
it, used by the closed witnesses. -/
def complaintTask : PendingTask :=
  { type_ := "complaint", product := none, issue := none, order_id := none }

/-- State with a freshly opened complaint task. -/
def pendingSt : BotState := { initState with pending := some complaintTask }

/-- Witness for C4 at a concrete state and command input. -/
theorem c4_witness :
    handle plainEnv pendingSt "/help" =
      if strStarts "/" (normalizeText "/help") = true then
        dispatchIntent plainEnv (addHistory plainEnv pendingSt "user" "/help") "/help"
          (normalizeText "/help")
      else
        handleComplaint plainEnv (addHistory plainEnv pendingSt "user" "/help") "/help" :=
  c4_pending_routing plainEnv pendingSt complaintTask "/help" rfl rfl

/-- The classifier dispatch of the literal line `/reset` lands in
`handle_reset` (all earlier intent tests fail, the `reset` pattern
matches exactly). -/
theorem dispatch_reset (env : Env) (st : BotState) :
    dispatchIntent env st "/reset" "/reset" = handleReset env st := rfl

/-- C10: issuing `/reset` while a complaint task is pending clears
`user_name`, `preferences` and the history (the fresh history holds
only the confirmation the bot then appends), but leaves `pending_task`
untouched: the flow stays active and the next non-command input is
still consumed by the complaint slot-filling handler. -/
theorem c10_reset_frame (env : Env) (st : BotState) (tk : PendingTask) (t' : String)
    (h : st.pending = some tk) (ht : tk.type_ = "complaint")
    (hs' : strStarts "/" (normalizeText t') = false) :
    (handle env st "/reset").1 = "Memory cleared. Fresh start!" ∧
    (handle env st "/reset").2.pending = st.pending ∧
    (handle env st "/reset").2.mem.user_name = none ∧
    (handle env st "/reset").2.mem.preferences = [] ∧
    (handle env st "/reset").2.mem.history
      = [{ time := env.times (st.timeIdx + 1), role := "assistant",
           text := "Memory cleared. Fresh start!" }] ∧
    handle env (handle env st "/reset").2 t'
      = handleComplaint env (addHistory env (handle env st "/reset").2 "user" t') t' := by
  have hs : strStarts "/" (normalizeText "/reset") = true := by decide
  have hn : normalizeText "/reset" = "/reset" := by decide
  have hmain : handle env st "/reset"
      = handleReset env (addHistory env st "user" "/reset") := by
    rw [handle_pending_cmd env st tk "/reset" h hs, hn, dispatch_reset]
  rw [hmain]
  refine ⟨rfl, rfl, rfl, rfl, ?_, ?_⟩
  · show histAppend [] _ = _
    rw [histAppend_nil]
    rfl
  · refine handle_pending_noncmd env _ tk t' ?_ ht hs'
    show st.pending = some tk
    exact h

/-- Witness for C10 at a concrete state, with `my laptop` as the next
non-command input. -/
theorem c10_witness :
    (handle plainEnv pendingSt "/reset").1 = "Memory cleared. Fresh start!" ∧
    (handle plainEnv pendingSt "/reset").2.pending = pendingSt.pending ∧
    (handle plainEnv pendingSt "/reset").2.mem.user_name = none ∧
    (handle plainEnv pendingSt "/reset").2.mem.preferences = [] ∧
    (handle plainEnv pendingSt "/reset").2.mem.history
      = [{ time := plainEnv.times (pendingSt.timeIdx + 1), role := "assistant",
           text := "Memory cleared. Fresh start!" }] ∧
    handle plainEnv (handle plainEnv pendingSt "/reset").2 "my laptop"
      = handleComplaint plainEnv
          (addHistory plainEnv (handle plainEnv pendingSt "/reset").2 "user" "my laptop")
          "my laptop" :=
  c10_reset_frame plainEnv pendingSt complaintTask "my laptop" rfl rfl (by decide)

/-- A complaint task in the last slot-filling step: product and issue
captured, order id pending. -/
def c6Task : PendingTask :=
  { type_ := "complaint", product := some "laptop", issue := some "broken",
    order_id := none }

/-- State in the last slot-filling step. -/
def c6State : BotState := { initState with pending := some c6Task }

/-- C6 counterexample: on the sentinel reply `none` the confirmation
shows `Order ID: N/A`, not the claimed "no order id provided"; and a
non-sentinel reply is captured stripped of surrounding whitespace, not
verbatim (` A1 ` is confirmed as `A1`). -/
theorem c6_counterexample :
    strIncl "no order id provided" (handleComplaint plainEnv c6State "none").1 = false ∧
    strIncl "Order ID: N/A" (handleComplaint plainEnv c6State "none").1 = true ∧
    (handleComplaint plainEnv c6State " A1 ").1
      = "Thanks! Ticket TKT-10000 created. Product: laptop. Issue: broken. Order ID: A1. Our team will follow up." := by
  refine ⟨by decide, by decide, by decide⟩

/-- The ticket confirmation contains `Order ID: <value>` for whatever
display value follows the `. Order ID: ` separator. -/
theorem strIncl_order (x od e' : String) :
    strIncl ("Order ID: " ++ od) (x ++ ". Order ID: " ++ od ++ e') = true := by
  have hsplit : (". Order ID: " : String) = ". " ++ "Order ID: " := rfl
  have hx : x ++ ". Order ID: " ++ od ++ e'
      = (x ++ ". ") ++ (("Order ID: " ++ od) ++ e') := by
    rw [hsplit, ← String.append_assoc x ". " "Order ID: ",
        String.append_assoc (x ++ ". ") "Order ID: " od,
        String.append_assoc (x ++ ". ") ("Order ID: " ++ od) e']
  rw [hx]
  exact strIncl_middle _ _ _

/-- C6 (amended): on the final slot-filling transition the reply text
is stripped; when the stripped reply equals the literal `none`
case-insensitively the order-id slot is set to null and the
confirmation shows `Order ID: N/A`; any other non-blank stripped reply
appears after `Order ID: ` in the confirmation.  In both cases the
pending task is cleared. -/
theorem c6_order_id_amended (env : Env) (st : BotState) (p i t : String)
    (h : st.pending = some { type_ := "complaint", product := some p, issue := some i,
                             order_id := none }) :
    (handleComplaint env st t).2.pending = none ∧
    (pyLower (pyStrip t) = "none" →
      strIncl "Order ID: N/A" (handleComplaint env st t).1 = true) ∧
    (pyLower (pyStrip t) ≠ "none" → pyStrip t ≠ "" →
      strIncl ("Order ID: " ++ pyStrip t) (handleComplaint env st t).1 = true) := by
  have hmain : handleComplaint env st t
      = botReply env { (randint env st 10000 99999).2 with pending := none }
          ("Thanks! Ticket TKT-" ++ toString (randint env st 10000 99999).1 ++
           " created. Product: " ++ p ++ ". Issue: " ++ i ++ ". Order ID: " ++
           orderDisplay (if pyLower (pyStrip t) = "none" then none else some (pyStrip t)) ++
           ". Our team will follow up.") := by
    unfold handleComplaint
    rw [h]
    rfl
  rw [hmain]
  refine ⟨rfl, ?_, ?_⟩
  · intro hnone
    rw [botReply_fst, if_pos hnone]
    have hna : orderDisplay none = "N/A" := rfl
    rw [hna]
    have hjoin : ("Order ID: N/A" : String) = "Order ID: " ++ "N/A" := rfl
    rw [hjoin]
    exact strIncl_order _ "N/A" _
  · intro hne hne'
    rw [botReply_fst, if_neg hne]
    have hod : orderDisplay (some (pyStrip t)) = pyStrip t := by
      simp [orderDisplay, hne']
    rw [hod]
    exact strIncl_order _ (pyStrip t) _

/-- Witness for the amended C6 theorem: the sentinel reply `NONE`
(case-insensitive) clears the task and the confirmation shows
`Order ID: N/A`. -/
theorem c6_witness :
    (handleComplaint plainEnv c6State "NONE").2.pending = none ∧
    strIncl "Order ID: N/A" (handleComplaint plainEnv c6State "NONE").1 = true :=
  ⟨(c6_order_id_amended plainEnv c6State "laptop" "broken" "NONE" rfl).1,
   (c6_order_id_amended plainEnv c6State "laptop" "broken" "NONE" rfl).2.1 (by decide)⟩

theorem listPre_ext {n x : List Char} (h : listPre n x = true) (y : List Char) :
    listPre n (x ++ y) = true := by
  induction n generalizing x with
  | nil => rfl
  | cons a as ih =>
    cases x with
    | nil => cases h
    | cons b bs =>
      simp only [listPre, Bool.and_eq_true] at h
      simp only [List.cons_append, listPre, Bool.and_eq_true]
      exact ⟨h.1, ih h.2 ⟩

theorem listIncl_ext {n x : List Char} (h : listIncl n x = true) (y : List Char) :
    listIncl n (x ++ y) = true := by
  induction x with
  | nil =>
    simp only [listIncl] at h
    exact listIncl_of_listPre (listPre_ext h y)
  | cons c cs ih =>
    simp only [listIncl, Bool.or_eq_true] at h
    rcases h with h | h
    · simp only [List.cons_append, listIncl, Bool.or_eq_true]
      exact Or.inl (listPre_ext h y)
    · simp only [List.cons_append, listIncl, Bool.or_eq_true]
      exact Or.inr (ih h)

theorem listPre_self (n : List Char) : listPre n n = true := by
  have := listPre_append_self n []
  rwa [List.append_nil] at this

/-- A string occurs at the end of an append. -/
theorem strIncl_suffix (x m : String) : strIncl m (x ++ m) = true := by
  show listIncl m.data (x ++ m).data = true
  rw [String.data_append]
  exact listIncl_append_left (listIncl_of_listPre (listPre_self m.data)) x.data

/-- Containment survives appending on the right. -/
theorem strIncl_append_ext (m a b : String) (h : strIncl m a = true) :
    strIncl m (a ++ b) = true := by
  show listIncl m.data (a ++ b).data = true
  rw [String.data_append]
  exact listIncl_ext h b.data

/-- Turn 1 of the complaint flow: with no pending task, a turn
classified `complaint` opens the ticket, prompts for the product, and
consumes no randomness. -/
theorem complaint_turn_start (env : Env) (st : BotState) (t : String)
    (h : st.pending = none)
    (hc : (detectIntent (normalizeText t)).1 = "complaint") :
    handle env st t
      = botReply env { (addHistory env st "user" t) with pending := some complaintTask }
          "I'm opening a support ticket. What product is this about?" := by
  rw [handle_no_pending env st t h]
  rcases hd : detectIntent (normalizeText t) with ⟨name, m⟩
  rw [hd] at hc
  have hname : name = "complaint" := hc
  subst hname
  unfold dispatchIntent
  rw [hd]
  show handleComplaint env (addHistory env st "user" t) t = _
  unfold handleComplaint
  rw [addHistory_pending, h]
  rfl

/-- Turn 2: the raw text is captured verbatim as the product. -/
theorem complaint_turn_product (env : Env) (st : BotState) (t : String)
    (h : st.pending = some complaintTask)
    (hs : strStarts "/" (normalizeText t) = false) :
    handle env st t
      = botReply env { (addHistory env st "user" t) with
            pending := some ⟨"complaint", some t, none, none⟩ }
          "Got it. Briefly describe the issue." := by
  rw [handle_pending_noncmd env st complaintTask t h rfl hs]
  unfold handleComplaint
  rw [addHistory_pending, h]
  rfl

/-- Turn 3: the raw text is captured verbatim as the issue. -/
theorem complaint_turn_issue (env : Env) (st : BotState) (p t : String)
    (h : st.pending = some { type_ := "complaint", product := some p, issue := none,
                             order_id := none })
    (hs : strStarts "/" (normalizeText t) = false) :
    handle env st t
      = botReply env { (addHistory env st "user" t) with
            pending := some ⟨"complaint", some p, some t, none⟩ }
          "Please share your order ID (or say 'none')." := by
  rw [handle_pending_noncmd env st _ t h rfl hs]
  unfold handleComplaint
  rw [addHistory_pending, h]
  rfl

/-- Turn 4: the stripped text is captured as the order id (the
`none` sentinel becomes a null slot), a ticket number is drawn from
the stream, the task is cleared and the confirmation is produced. -/
theorem complaint_turn_finish (env : Env) (st : BotState) (p i t : String)
    (h : st.pending = some { type_ := "complaint", product := some p, issue := some i,
                             order_id := none })
    (hs : strStarts "/" (normalizeText t) = false) :
    (handle env st t).1
      = "Thanks! Ticket TKT-" ++ toString (10000 + env.rand st.rngIdx % 90000) ++
        " created. Product: " ++ p ++ ". Issue: " ++ i ++ ". Order ID: " ++
        orderDisplay (if pyLower (pyStrip t) = "none" then none else some (pyStrip t)) ++
        ". Our team will follow up." ∧
    (handle env st t).2.pending = none := by
  rw [handle_pending_noncmd env st _ t h rfl hs]
  have hmain : handleComplaint env (addHistory env st "user" t) t
      = botReply env
          { (randint env (addHistory env st "user" t) 10000 99999).2 with pending := none }
          ("Thanks! Ticket TKT-" ++
           toString (randint env (addHistory env st "user" t) 10000 99999).1 ++
           " created. Product: " ++ p ++ ". Issue: " ++ i ++ ". Order ID: " ++
           orderDisplay (if pyLower (pyStrip t) = "none" then none else some (pyStrip t)) ++
           ". Our team will follow up.") := by
    unfold handleComplaint
    rw [addHistory_pending, h]
    rfl
  rw [hmain]
  exact ⟨rfl, rfl⟩

/-- A session prefix: fold `Chatbot.handle` over the input lines,
keeping the last reply. -/
def runBot (env : Env) (st : BotState) (ts : List String) : String × BotState :=
  ts.foldl (fun acc t => handle env acc.2 t) ("", st)

/-- C2: a complaint flow started with no pending task and fed exactly
three further non-command replies ends with the task cleared and a
confirmation containing `TKT-` followed by a number in
`[10000, 99999]` and the three captured slot values (the order id as
stripped; hypotheses exclude the blank and `none` sentinels that are
displayed as `N/A`). -/
theorem c2_complaint_flow (env : Env) (st : BotState) (t0 t1 t2 t3 : String)
    (h0 : st.pending = none)
    (hc : (detectIntent (normalizeText t0)).1 = "complaint")
    (h1 : strStarts "/" (normalizeText t1) = false)
    (h2 : strStarts "/" (normalizeText t2) = false)
    (h3 : strStarts "/" (normalizeText t3) = false)
    (h4 : pyStrip t3 ≠ "")
    (h5 : pyLower (pyStrip t3) ≠ "none") :
    (runBot env st [t0, t1, t2, t3]).2.pending = none ∧
    ∃ n : ℕ, 10000 ≤ n ∧ n ≤ 99999 ∧
      strIncl ("TKT-" ++ toString n) (runBot env st [t0, t1, t2, t3]).1 = true ∧
      strIncl t1 (runBot env st [t0, t1, t2, t3]).1 = true ∧
      strIncl t2 (runBot env st [t0, t1, t2, t3]).1 = true ∧
      strIncl (pyStrip t3) (runBot env st [t0, t1, t2, t3]).1 = true := by
  have hrun : runBot env st [t0, t1, t2, t3]
      = handle env (handle env (handle env (handle env st t0).2 t1).2 t2).2 t3 := rfl
  have e1 := complaint_turn_start env st t0 h0 hc
  have p1 : (handle env st t0).2.pending = some complaintTask := by
    rw [e1]
    rfl
  have r1 : (handle env st t0).2.rngIdx = st.rngIdx := by
    rw [e1]
    exact rfl
  have e2 := complaint_turn_product env (handle env st t0).2 t1 p1 h1
  have p2 : (handle env (handle env st t0).2 t1).2.pending
      = some ⟨"complaint", some t1, none, none⟩ := by
    rw [e2]
    rfl
  have r2 : (handle env (handle env st t0).2 t1).2.rngIdx = st.rngIdx := by
    rw [e2]
    exact r1
  have e3 := complaint_turn_issue env (handle env (handle env st t0).2 t1).2 t1 t2 p2 h2
  have p3 : (handle env (handle env (handle env st t0).2 t1).2 t2).2.pending
      = some ⟨"complaint", some t1, some t2, none⟩ := by
    rw [e3]
    rfl
  have r3 : (handle env (handle env (handle env st t0).2 t1).2 t2).2.rngIdx = st.rngIdx := by
    rw [e3]
    exact r2
  have hfin := complaint_turn_finish env
    (handle env (handle env (handle env st t0).2 t1).2 t2).2 t1 t2 t3 p3 h3
  have hod : orderDisplay
      (if pyLower (pyStrip t3) = "none" then none else some (pyStrip t3)) = pyStrip t3 := by
    rw [if_neg h5]
    simp [orderDisplay, h4]
  have hreply : (runBot env st [t0, t1, t2, t3]).1
      = "Thanks! Ticket TKT-" ++ toString (10000 + env.rand st.rngIdx % 90000) ++
        " created. Product: " ++ t1 ++ ". Issue: " ++ t2 ++ ". Order ID: " ++
        pyStrip t3 ++ ". Our team will follow up." := by
    rw [hrun, hfin.1, hod, r3]
  have hpend : (runBot env st [t0, t1, t2, t3]).2.pending = none := by
    rw [hrun]
    exact hfin.2
  refine ⟨hpend, 10000 + env.rand st.rngIdx % 90000, Nat.le_add_right _ _, ?_, ?_, ?_, ?_, ?_⟩
  · have hmod : env.rand st.rngIdx % 90000 < 90000 :=
      Nat.mod_lt _ (by norm_num)
    omega
  · rw [hreply]
    have hsplit : ("Thanks! Ticket TKT-" : String)
          ++ toString (10000 + env.rand st.rngIdx % 90000)
        = "Thanks! Ticket "
          ++ ("TKT-" ++ toString (10000 + env.rand st.rngIdx % 90000)) := by
      rw [show ("Thanks! Ticket TKT-" : String) = "Thanks! Ticket " ++ "TKT-" from rfl,
          String.append_assoc]
    rw [hsplit]
    exact strIncl_append_ext _ _ _ (strIncl_append_ext _ _ _ (strIncl_append_ext _ _ _
      (strIncl_append_ext _ _ _ (strIncl_append_ext _ _ _ (strIncl_append_ext _ _ _
        (strIncl_append_ext _ _ _ (strIncl_suffix _ _)))))))
  · rw [hreply]
    exact strIncl_append_ext _ _ _ (strIncl_append_ext _ _ _ (strIncl_append_ext _ _ _
      (strIncl_append_ext _ _ _ (strIncl_append_ext _ _ _ (strIncl_suffix _ _)))))
  · rw [hreply]
    exact strIncl_append_ext _ _ _ (strIncl_append_ext _ _ _ (strIncl_append_ext _ _ _
      (strIncl_suffix _ _)))
  · rw [hreply]
    exact strIncl_append_ext _ _ _ (strIncl_suffix _ _)

/-- Witness for C2 at a concrete four-turn session. -/
theorem c2_witness :
    (runBot plainEnv initState ["i have a problem", "laptop", "it broke", "A1"]).2.pending
      = none ∧
    ∃ n : ℕ, 10000 ≤ n ∧ n ≤ 99999 ∧
      strIncl ("TKT-" ++ toString n)
        (runBot plainEnv initState ["i have a problem", "laptop", "it broke", "A1"]).1 = true ∧
      strIncl "laptop"
        (runBot plainEnv initState ["i have a problem", "laptop", "it broke", "A1"]).1 = true ∧
      strIncl "it broke"
        (runBot plainEnv initState ["i have a problem", "laptop", "it broke", "A1"]).1 = true ∧
      strIncl (pyStrip "A1")
        (runBot plainEnv initState ["i have a problem", "laptop", "it broke", "A1"]).1 = true :=
  c2_complaint_flow plainEnv initState "i have a problem" "laptop" "it broke" "A1"
    rfl (by decide) (by decide) (by decide) (by decide) (by decide) (by decide)

/-- Pattern used by `List.getD` beyond the table: it never matches. -/
def defaultPat : String × (String → Option (Option String)) := ("", fun _ => none)

/-- Does the `k`-th pattern of the cascade match the text? -/
def patMatches (t : String) (k : ℕ) : Bool :=
  (((INTENT_PATTERNS.getD k defaultPat).2) t).isSome

/-- Index of the first matching pattern of a cascade. -/
def firstMatchIdx (l : List (String × (String → Option (Option String)))) (t : String) :
    Option ℕ :=
  match l with
  | [] => none
  | p :: rest => if (p.2 t).isSome then some 0 else (firstMatchIdx rest t).map (· + 1)

theorem firstMatchIdx_le (l : List (String × (String → Option (Option String))))
    (t : String) : ∀ i, i < l.length → ((l.getD i defaultPat).2 t).isSome = true →
    ∃ k, firstMatchIdx l t = some k ∧ k ≤ i := by
  induction l with
  | nil => intro i hi; simp at hi
  | cons p rest ih =>
    intro i hi hm
    by_cases hp : (p.2 t).isSome = true
    · exact ⟨0, by simp [firstMatchIdx, hp], Nat.zero_le _⟩
    · have hp' : (p.2 t).isSome = false := by simpa using hp
      cases i with
      | zero =>
        rw [List.getD_cons_zero] at hm
        rw [hm] at hp'
        cases hp'
      | succ i' =>
        have hm' : ((rest.getD i' defaultPat).2 t).isSome = true := by
          simpa [List.getD_cons_succ] using hm
        have hi' : i' < rest.length := by simpa using hi
        obtain ⟨k, hk, hki⟩ := ih i' hi' hm'
        refine ⟨k + 1, ?_, by omega⟩
        simp [firstMatchIdx, hp', hk]

theorem firstMatchIdx_spec (l : List (String × (String → Option (Option String))))
    (t : String) : ∀ k, firstMatchIdx l t = some k →
    k < l.length ∧ ((l.getD k defaultPat).2 t).isSome = true ∧
      ∀ j, j < k → ((l.getD j defaultPat).2 t).isSome = false := by
  induction l with
  | nil => intro k hk; simp [firstMatchIdx] at hk
  | cons p rest ih =>
    intro k hk
    by_cases hp : (p.2 t).isSome = true
    · simp [firstMatchIdx, hp] at hk
      subst hk
      exact ⟨by simp, by simpa using hp, fun j hj => absurd hj (Nat.not_lt_zero j)⟩
    · have hp' : (p.2 t).isSome = false := by simpa using hp
      simp only [firstMatchIdx, hp', Bool.false_eq_true, if_false] at hk
      cases hrest : firstMatchIdx rest t with
      | none => rw [hrest] at hk; cases hk
      | some k' =>
        rw [hrest, Option.map_some'] at hk
        have hkk : k = k' + 1 := (Option.some.inj hk).symm
        subst hkk
        obtain ⟨hlen, hm, hleast⟩ := ih k' hrest
        refine ⟨by simp; omega, by simpa [List.getD_cons_succ] using hm, ?_⟩
        intro j hj
        cases j with
        | zero => simpa using hp'
        | succ j' =>
          have : j' < k' := by omega
          simpa [List.getD_cons_succ] using hleast j' this

theorem findIntent_firstMatchIdx (l : List (String × (String → Option (Option String))))
    (t : String) : ∀ k, firstMatchIdx l t = some k →
    ∃ g, findIntent l t = some ((l.getD k defaultPat).1, g) := by
  induction l with
  | nil => intro k hk; simp [firstMatchIdx] at hk
  | cons p rest ih =>
    intro k hk
    by_cases hp : (p.2 t).isSome = true
    · simp [firstMatchIdx, hp] at hk
      subst hk
      obtain ⟨g, hg⟩ := Option.isSome_iff_exists.mp hp
      exact ⟨g, by simp [findIntent, hg]⟩
    · have hp' : (p.2 t).isSome = false := by simpa using hp
      have hnone : p.2 t = none := Option.not_isSome_iff_eq_none.mp (by simp [hp'])
      simp only [firstMatchIdx, hp', Bool.false_eq_true, if_false] at hk
      cases hrest : firstMatchIdx rest t with
      | none => rw [hrest] at hk; cases hk
      | some k' =>
        rw [hrest, Option.map_some'] at hk
        have hkk : k = k' + 1 := (Option.some.inj hk).symm
        subst hkk
        obtain ⟨g, hfind⟩ := ih k' hrest
        refine ⟨g, ?_⟩
        simpa [findIntent, hnone, List.getD_cons_succ] using hfind

/-- C1: on any text matched by two (or more) distinct patterns of the
cascade, `detect_intent` returns the intent of the first matching
pattern in the canonical order (no earlier pattern matches), and the
classification of equal inputs is equal (the classifier is a pure
function of the text). -/
theorem c1_first_match_deterministic (t : String) (i j : ℕ)
    (hij : i ≠ j) (hi : i < INTENT_PATTERNS.length) (hj : j < INTENT_PATTERNS.length)
    (hmi : patMatches t i = true) (hmj : patMatches t j = true) :
    ∃ k, k ≤ i ∧ k ≤ j ∧ patMatches t k = true ∧
      (∀ l, l < k → patMatches t l = false) ∧
      (detectIntent t).1 = (INTENT_PATTERNS.getD k defaultPat).1 ∧
      (∀ t', t' = t → detectIntent t' = detectIntent t) := by
  obtain ⟨k, hk, hki⟩ := firstMatchIdx_le INTENT_PATTERNS t i hi hmi
  obtain ⟨k', hk', hkj⟩ := firstMatchIdx_le INTENT_PATTERNS t j hj hmj
  have hkk : k' = k := by
    rw [hk] at hk'
    exact Option.some.inj hk'.symm
  subst hkk
  obtain ⟨hlen, hm, hleast⟩ := firstMatchIdx_spec INTENT_PATTERNS t k' hk
  obtain ⟨g, hfind⟩ := findIntent_firstMatchIdx INTENT_PATTERNS t k' hk
  refine ⟨k', hki, hkj, hm, hleast, ?_, fun t' ht' => by rw [ht']⟩
  unfold detectIntent
  rw [hfind]

/-- Witness for C1: `hi i have a problem` matches both the `greet`
pattern (index 0) and the `complaint` pattern (index 13); the
classifier returns `greet`. -/
theorem c1_witness :
    ∃ k, k ≤ 0 ∧ k ≤ 13 ∧ patMatches "hi i have a problem" k = true ∧
      (∀ l, l < k → patMatches "hi i have a problem" l = false) ∧
      (detectIntent "hi i have a problem").1
        = (INTENT_PATTERNS.getD k defaultPat).1 ∧
      (∀ t', t' = "hi i have a problem" →
        detectIntent t' = detectIntent "hi i have a problem") :=
  c1_first_match_deterministic "hi i have a problem" 0 13 (by decide)
    (by decide) (by decide) (by decide) (by decide)
